import Mathlib

/-!
Verification of the Halifax bar sentiment system.

The dashboard components (Dashboard, BarList, DataQuality, the TypeScript
interface declarations of the API types) are embedded directly from the
TypeScript source.  Sentiment scores are JavaScript numbers; we embed them as
rationals, and where JavaScript division by zero matters we use an explicit
number type with non-finite values.

The analytics engine (fusion scorer, quality aggregator, trend aggregator,
comparison engine) is not part of the checked-in source tree; those components
are modelled from the specification, as marked on each definition.
-/

namespace HalifaxBar

/-! ## Dashboard frontend, embedded from the TypeScript source -/

/-- Return type of the Dashboard component getSentimentLabel: a label string
together with an MUI chip color. -/
structure LabelColor where
  label : String
  color : String
deriving DecidableEq

namespace Dashboard

/-- Dashboard component: getSentimentLabel (score). -/
def getSentimentLabel (score : ℚ) : LabelColor :=
  if score > 0.1 then ⟨"Positive", "success"⟩
  else if score < -0.1 then ⟨"Negative", "error"⟩
  else ⟨"Neutral", "warning"⟩

end Dashboard

namespace BarList

/-- BarList component: getSentimentColor (score). -/
def getSentimentColor (score : ℚ) : String :=
  if score > 0.1 then "success"
  else if score < -0.1 then "error"
  else "warning"

/-- BarList component: getSentimentLabel (score). -/
def getSentimentLabel (score : ℚ) : String :=
  if score > 0.1 then "Positive"
  else if score < -0.1 then "Negative"
  else "Neutral"

end BarList

/-- The three sentiment categories of the data model. -/
inductive SentimentCategory where
  | positive
  | negative
  | neutral
deriving DecidableEq

/-- Category denoted by a frontend label string. -/
def labelCategory (l : String) : SentimentCategory :=
  if l = "Positive" then .positive
  else if l = "Negative" then .negative
  else .neutral

/-- Category denoted by a frontend chip color. -/
def colorCategory (c : String) : SentimentCategory :=
  if c = "success" then .positive
  else if c = "error" then .negative
  else .neutral

/-! ## JavaScript numbers with non-finite values

Only the operations the embedded components perform are modelled: division
(which in JavaScript yields NaN or a signed infinity on a zero divisor) and
multiplication. -/

/-- A JavaScript number: a finite value, NaN, or a signed infinity. -/
inductive JSNum where
  | fin (q : ℚ)
  | nan
  | inf
  | ninf
deriving DecidableEq

/-- JavaScript division; on a zero divisor the result is NaN (zero dividend)
or a signed infinity. -/
def jsDiv : JSNum → JSNum → JSNum
  | .fin a, .fin b =>
      if b = 0 then
        (if a = 0 then .nan else if 0 < a then .inf else .ninf)
      else .fin (a / b)
  | .nan, _ => .nan
  | _, .nan => .nan
  | .inf, .fin _ => .inf
  | .ninf, .fin _ => .ninf
  | .fin _, .inf => .fin 0
  | .fin _, .ninf => .fin 0
  | .inf, .inf => .nan
  | .inf, .ninf => .nan
  | .ninf, .inf => .nan
  | .ninf, .ninf => .nan

/-- JavaScript multiplication on the modelled number type. -/
def jsMul : JSNum → JSNum → JSNum
  | .fin a, .fin b => .fin (a * b)
  | .nan, _ => .nan
  | _, .nan => .nan
  | .inf, .fin b => if b = 0 then .nan else if 0 < b then .inf else .ninf
  | .fin a, .inf => if a = 0 then .nan else if 0 < a then .inf else .ninf
  | .ninf, .fin b => if b = 0 then .nan else if 0 < b then .ninf else .inf
  | .fin a, .ninf => if a = 0 then .nan else if 0 < a then .ninf else .inf
  | .inf, .inf => .inf
  | .inf, .ninf => .ninf
  | .ninf, .inf => .ninf
  | .ninf, .ninf => .inf

/-- Whether a JavaScript number is finite. -/
def JSNum.isFinite : JSNum → Bool
  | .fin _ => true
  | _ => false

/-- The QualityMetrics row type of the TypeScript API types. -/
structure QualityMetrics where
  processing_date : String
  total_posts_processed : ℚ
  valid_posts : ℚ
  invalid_posts : ℚ
  spam_filtered : ℚ
  mentions_found : ℚ
  unique_bars_mentioned : ℚ
  average_confidence : ℚ
  data_quality_score : ℚ
deriving DecidableEq

/-- DataQuality component, valid-posts cell: the percentage
(valid_posts / total_posts_processed) * 100, computed with no guard on the
denominator. -/
def dataQualityValidPct (m : QualityMetrics) : JSNum :=
  jsMul (jsDiv (.fin m.valid_posts) (.fin m.total_posts_processed)) (.fin 100)

/-- Dashboard component, sentiment-distribution row: the counts of the
distribution are summed and the percentage is total > 0 ? (count / total) * 100 : 0. -/
def dashboardSentimentPct (counts : List ℚ) (count : ℚ) : JSNum :=
  let total := counts.sum
  if 0 < total then jsMul (jsDiv (.fin count) (.fin total)) (.fin 100) else .fin 0

/-! ## Record shape of the AnalyticsSummary interface -/

/-- Field names of the AnalyticsSummary interface in the TypeScript API types,
in declaration order. -/
def analyticsSummaryFields : List String :=
  ["total_mentions", "unique_bars", "avg_sentiment_score", "sentiment_distribution",
   "top_bars", "trending_foods", "data_quality_score", "analysis_date"]

/-- Field names of the element records of the top_bars field of the
AnalyticsSummary interface. -/
def analyticsSummaryTopBarFields : List String :=
  ["name", "mentions", "sentiment"]

/-- Field names of the getAnalyticsSummary record shape promised by the
interface contract in the specification, in the order the contract lists them. -/
def specAnalyticsSummaryFields : List String :=
  ["total_mentions", "unique_entities", "avg_sentiment_score", "sentiment_distribution",
   "top_entities", "data_quality_score", "analysis_date"]

/-- Field names the interface contract promises for the element records of the
top_entities field. -/
def specTopEntityFields : List String :=
  ["name", "mentions", "sentiment"]

/-- The systematic renaming between the contract vocabulary (entities) and the
concrete vocabulary of the code (bars). -/
def entityFieldToBarField (f : String) : String :=
  if f = "unique_entities" then "unique_bars"
  else if f = "top_entities" then "top_bars"
  else f

/-! ## The analytics engine, modelled from the specification -/

/-- Modelled from the spec: a successful model adapter outcome, a per-model
score with a confidence (the adapters themselves are not in the source tree). -/
structure ModelOutcome where
  model : String
  score : ℚ
  confidence : ℚ
deriving DecidableEq

/-- Modelled from the spec: the typed adapter failures ModelUnavailable,
ModelTimeout and ModelError. -/
inductive AdapterFailure where
  | unavailable
  | timeout
  | modelError
deriving DecidableEq

/-- Modelled from the spec: a model adapter call returns either a score with a
confidence or a typed failure. -/
inductive AdapterResult where
  | success (outcome : ModelOutcome)
  | failure (kind : AdapterFailure)
deriving DecidableEq

/-- Whether an adapter result is a failure. -/
def AdapterResult.isFailure : AdapterResult → Bool
  | .success _ => false
  | .failure _ => true

/-- Modelled from the spec: the successful outcomes among a list of adapter
results, the input of the fusion scorer. -/
def successes (results : List AdapterResult) : List ModelOutcome :=
  results.filterMap fun r =>
    match r with
    | .success o => some o
    | .failure _ => none

/-- Modelled from the spec: scoring a mention with zero successful models is a
hard failure, EnsembleExhausted. -/
inductive FusionError where
  | ensembleExhausted
deriving DecidableEq

/-- Modelled from the spec: the fixed threshold rule deriving a label from a
score (score > 0.1 positive, score < -0.1 negative, else neutral). -/
def labelOfScore (s : ℚ) : String :=
  if s > 0.1 then "positive"
  else if s < -0.1 then "negative"
  else "neutral"

/-- Modelled from the spec: a SentimentResult, the output of the fusion
scorer. -/
structure SentimentResult where
  score : ℚ
  confidence : ℚ
  label : String
  per_model_scores : List (String × ℚ)
deriving DecidableEq

/-- Modelled from the spec: the fusion configuration constants, a
high-confidence threshold and the cap applied to single-model fusion. -/
structure FusionConfig where
  highConfidenceCap : ℚ
  singleModelCap : ℚ
deriving DecidableEq

/-- Modelled from the spec: running sum of score times confidence over the
surviving model outcomes. -/
def weightedScoreSum (outcomes : List ModelOutcome) : ℚ :=
  outcomes.foldl (fun acc o => acc + o.score * o.confidence) 0

/-- Modelled from the spec: running sum of the confidences of the surviving
model outcomes. -/
def confidenceSum (outcomes : List ModelOutcome) : ℚ :=
  outcomes.foldl (fun acc o => acc + o.confidence) 0

/-- Modelled from the spec: the confidence-weighted average of the per-model
scores. -/
def fusedScore (outcomes : List ModelOutcome) : ℚ :=
  weightedScoreSum outcomes / confidenceSum outcomes

/-- Modelled from the spec: mean confidence of the surviving outcomes. -/
def meanConfidence (outcomes : List ModelOutcome) : ℚ :=
  confidenceSum outcomes / outcomes.length

/-- Modelled from the spec: mean of the per-model scores. -/
def meanScore (outcomes : List ModelOutcome) : ℚ :=
  (outcomes.map (fun o => o.score)).sum / outcomes.length

/-- Modelled from the spec: variance of the per-model scores, the spread
penalty of the fused confidence. -/
def scoreVariance (outcomes : List ModelOutcome) : ℚ :=
  (outcomes.map (fun o => (o.score - meanScore outcomes) ^ 2)).sum / outcomes.length

/-- Modelled from the spec: fused confidence for two or more surviving models,
mean confidence discounted by the score spread. -/
def fusedConfidence (outcomes : List ModelOutcome) : ℚ :=
  meanConfidence outcomes * (1 - scoreVariance outcomes)

/-- Modelled from the spec: the per-model score breakdown of a fused result. -/
def perModelScores (outcomes : List ModelOutcome) : List (String × ℚ) :=
  outcomes.map fun o => (o.model, o.score)

/-- Modelled from the spec: the fusion scorer.  No surviving model is a hard
failure; exactly one surviving model reproduces that model, with the
confidence capped below the high-confidence threshold; otherwise the
confidence-weighted average is taken. -/
def fuse (cfg : FusionConfig) (outcomes : List ModelOutcome) :
    Except FusionError SentimentResult :=
  match outcomes with
  | [] => .error .ensembleExhausted
  | [o] =>
      .ok { score := o.score
            confidence := min o.confidence cfg.singleModelCap
            label := labelOfScore o.score
            per_model_scores := [(o.model, o.score)] }
  | os =>
      .ok { score := fusedScore os
            confidence := fusedConfidence os
            label := labelOfScore (fusedScore os)
            per_model_scores := perModelScores os }

/-- Modelled from the spec: scoring one mention fuses whatever adapter calls
succeeded. -/
def scoreMention (cfg : FusionConfig) (results : List AdapterResult) :
    Except FusionError SentimentResult :=
  fuse cfg (successes results)

/-- Modelled from the spec: a persisted Mention. -/
structure Mention where
  entity_name : String
  source_id : String
  text : String
  created_at : ℤ
  sentiment : SentimentResult
deriving DecidableEq

/-- Modelled from the spec: a raw item entering the pipeline before scoring. -/
structure RawItem where
  entity_name : String
  source_id : String
  text : String
  created_at : ℤ
deriving DecidableEq

/-- Modelled from the spec: the per-run tallies feeding the quality snapshot;
scored mentions and scoring errors. -/
structure RunQuality where
  scored : ℕ
  errors : ℕ
deriving DecidableEq

/-- Modelled from the spec: the Mention persisted for a scored raw item. -/
def mkMention (item : RawItem) (r : SentimentResult) : Mention :=
  ⟨item.entity_name, item.source_id, item.text, item.created_at, r⟩

/-- Modelled from the spec: processing one mention in a batch.  A scored
mention is persisted and counted as scored; a mention whose scoring fails is
not persisted and is counted as an error. -/
def processStep (cfg : FusionConfig) (acc : List Mention × RunQuality)
    (item : RawItem × List AdapterResult) : List Mention × RunQuality :=
  match scoreMention cfg item.2 with
  | .ok r => (acc.1 ++ [mkMention item.1 r], ⟨acc.2.scored + 1, acc.2.errors⟩)
  | .error _ => (acc.1, ⟨acc.2.scored, acc.2.errors + 1⟩)

/-- Modelled from the spec: processing a batch of mentions with their adapter
results. -/
def processBatch (cfg : FusionConfig) (items : List (RawItem × List AdapterResult)) :
    List Mention × RunQuality :=
  items.foldl (processStep cfg) ([], ⟨0, 0⟩)

/-! ## Quality aggregator, modelled from the specification -/

/-- Clamp a rational into the unit interval. -/
def clamp01 (x : ℚ) : ℚ := max 0 (min 1 x)

/-- Modelled from the spec: quality_score is a weighted blend of acceptance
rate and average confidence with a penalty proportional to the spam-filtered
fraction, clamped into the unit interval. -/
def quality_score (acceptanceRate avgConfidence spamFraction : ℚ) : ℚ :=
  clamp01 (2 / 5 * acceptanceRate + 2 / 5 * avgConfidence + 1 / 5 * (1 - spamFraction))

/-- Modelled from the spec: the immutable per-run QualityMetricsSnapshot. -/
structure QualityMetricsSnapshot where
  processed_at : ℤ
  total_processed : ℕ
  valid_count : ℕ
  invalid_count : ℕ
  spam_filtered_count : ℕ
  mentions_found : ℕ
  unique_entities : ℕ
  average_confidence : ℚ
  quality_score : ℚ
deriving DecidableEq

/-- Modelled from the spec: the quality aggregator rolls the per-run counts
into one snapshot, computing quality_score from the acceptance rate, the
average confidence and the spam-filtered fraction. -/
def mkQualitySnapshot (processedAt : ℤ) (total valid invalid spam mentionsFound uniqueEntities : ℕ)
    (avgConfidence : ℚ) : QualityMetricsSnapshot :=
  { processed_at := processedAt
    total_processed := total
    valid_count := valid
    invalid_count := invalid
    spam_filtered_count := spam
    mentions_found := mentionsFound
    unique_entities := uniqueEntities
    average_confidence := avgConfidence
    quality_score := quality_score ((valid : ℚ) / total) avgConfidence ((spam : ℚ) / total) }

/-! ## Trend aggregator, modelled from the specification -/

/-- Modelled from the spec: the trend bucket granularities. -/
inductive Granularity where
  | daily
  | weekly
  | monthly
deriving DecidableEq

/-- Civil date from a count of days since 1970-01-01 (proleptic Gregorian
calendar), as (year, month, day). -/
def civilFromDays (z : ℤ) : ℤ × ℤ × ℤ :=
  let z := z + 719468
  let era := (if 0 ≤ z then z else z - 146096) / 146097
  let doe := z - era * 146097
  let yoe := (doe - doe / 1460 + doe / 36524 - doe / 146096) / 365
  let y := yoe + era * 400
  let doy := doe - (365 * yoe + yoe / 4 - yoe / 100)
  let mp := (5 * doy + 2) / 153
  let d := doy - (153 * mp + 2) / 5 + 1
  let m := mp + (if mp < 10 then 3 else -9)
  (y + (if m ≤ 2 then 1 else 0), m, d)

/-- Days since 1970-01-01 of a civil date (proleptic Gregorian calendar). -/
def daysFromCivil (y m d : ℤ) : ℤ :=
  let y := y - (if m ≤ 2 then 1 else 0)
  let era := (if 0 ≤ y then y else y - 399) / 400
  let yoe := y - era * 400
  let mp := m + (if 2 < m then -3 else 9)
  let doy := (153 * mp + 2) / 5 + d - 1
  let doe := yoe * 365 + yoe / 4 - yoe / 100 + doy
  era * 146097 + doe - 719468

/-- Modelled from the spec: a created_at timestamp, counted in days since
1970-01-01, truncated to its granularity boundary: the calendar day itself,
the start of the ISO week (1970-01-01 was a Thursday, ISO weeks start on
Monday), or the first day of the calendar month. -/
def bucketStart (g : Granularity) (t : ℤ) : ℤ :=
  match g with
  | .daily => t
  | .weekly => t - (t + 3) % 7
  | .monthly =>
      let c := civilFromDays t
      daysFromCivil c.1 c.2.1 1

/-- Modelled from the spec: the grouping key of the trend aggregator, the
entity name together with the bucket start. -/
def trendKey (g : Granularity) (m : Mention) : String × ℤ :=
  (m.entity_name, bucketStart g m.created_at)

/-- Modelled from the spec: whether a mention qualifies for a trend request,
falling inside the window and matching the optional entity filter. -/
def qualifies (entities : Option (List String)) (windowStart windowEnd : ℤ)
    (m : Mention) : Bool :=
  decide (windowStart ≤ m.created_at) && decide (m.created_at ≤ windowEnd) &&
    (match entities with
     | none => true
     | some es => decide (m.entity_name ∈ es))

/-- Modelled from the spec: the mentions a trend request aggregates over. -/
def qualifyingMentions (mentions : List Mention) (entities : Option (List String))
    (windowStart windowEnd : ℤ) : List Mention :=
  mentions.filter (qualifies entities windowStart windowEnd)

/-- Modelled from the spec: one time-series point per entity and bucket. -/
structure TrendPoint where
  entity_name : String
  bucket_start : ℤ
  granularity : Granularity
  mention_count : ℕ
  avg_sentiment : ℚ
  avg_confidence : ℚ
  positive_count : ℕ
  negative_count : ℕ
  neutral_count : ℕ
deriving DecidableEq

/-- Modelled from the spec: the trend point of one (entity, bucket) key over a
qualifying mention list: the exact tally, plain means, and exact label
tallies over the mentions of that bucket. -/
def mkTrendPoint (g : Granularity) (l : List Mention) (k : String × ℤ) : TrendPoint :=
  let bucket := l.filter (fun m => decide (trendKey g m = k))
  { entity_name := k.1
    bucket_start := k.2
    granularity := g
    mention_count := bucket.length
    avg_sentiment := (bucket.map (fun m => m.sentiment.score)).sum / bucket.length
    avg_confidence := (bucket.map (fun m => m.sentiment.confidence)).sum / bucket.length
    positive_count := bucket.countP (fun m => decide (m.sentiment.label = "positive"))
    negative_count := bucket.countP (fun m => decide (m.sentiment.label = "negative"))
    neutral_count := bucket.countP (fun m => decide (m.sentiment.label = "neutral")) }

/-- Modelled from the spec: the trend aggregator buckets the qualifying
mentions by (entity, bucket start) and emits one point per key that actually
occurs, so buckets with zero mentions are omitted. -/
def aggregate (mentions : List Mention) (entities : Option (List String))
    (windowStart windowEnd : ℤ) (g : Granularity) : List TrendPoint :=
  let qualifying := qualifyingMentions mentions entities windowStart windowEnd
  ((qualifying.map (trendKey g)).dedup).map (mkTrendPoint g qualifying)

/-! ## Comparison engine, modelled from the specification -/

/-- Modelled from the spec: mentions of one entity. -/
def entityMentions (l : List Mention) (e : String) : List Mention :=
  l.filter (fun m => decide (m.entity_name = e))

/-- Modelled from the spec: the value of one requested metric for one entity
over a mention list. -/
def metricValue (l : List Mention) (metric : String) (e : String) : ℚ :=
  let ms := entityMentions l e
  if metric = "total_mentions" then (ms.length : ℚ)
  else if metric = "avg_sentiment" then (ms.map (fun m => m.sentiment.score)).sum / ms.length
  else if metric = "avg_confidence" then (ms.map (fun m => m.sentiment.confidence)).sum / ms.length
  else 0

/-- Modelled from the spec: the ranking order of a metric, descending by
value with ties broken by entity name ascending. -/
def rankRel (v : String → ℚ) (a b : String) : Prop :=
  v b < v a ∨ (v a = v b ∧ a ≤ b)

instance (v : String → ℚ) : DecidableRel (rankRel v) := fun a b => by
  unfold rankRel
  infer_instance

/-- Modelled from the spec: the mentions inside the trailing window of a
comparison request. -/
def windowMentions (mentions : List Mention) (now days : ℤ) : List Mention :=
  mentions.filter (fun m => decide (now - days ≤ m.created_at) && decide (m.created_at ≤ now))

/-- Modelled from the spec: the ComparisonResult record, serialized with the
bars naming. -/
structure ComparisonResult where
  bars : List String
  metrics : List String
  analysis_period : ℤ
  comparison_data : List (String × List (String × ℚ))
  rankings : List (String × List String)
deriving DecidableEq

/-- Modelled from the spec: the comparison engine computes per-entity metric
values over the trailing window and a full ranking of the requested entities
per metric. -/
def compareEntities (mentions : List Mention) (now : ℤ) (entities metrics : List String)
    (days : ℤ) : ComparisonResult :=
  let l := windowMentions mentions now days
  { bars := entities
    metrics := metrics
    analysis_period := days
    comparison_data := entities.map fun e => (e, metrics.map fun mt => (mt, metricValue l mt e))
    rankings := metrics.map fun mt =>
      (mt, List.insertionSort (rankRel (metricValue l mt)) entities) }

/-! ## General lemmas -/

theorem foldl_add_map_sum {α : Type} (f : α → ℚ) :
    ∀ (l : List α) (c : ℚ), l.foldl (fun acc o => acc + f o) c = c + (l.map f).sum := by
  intro l
  induction l with
  | nil => intro c; simp
  | cons a t ih =>
      intro c
      rw [List.foldl_cons, ih, List.map_cons, List.sum_cons]
      ring

theorem clamp01_mono {x y : ℚ} (h : x ≤ y) : clamp01 x ≤ clamp01 y :=
  max_le_max le_rfl (min_le_min le_rfl h)

theorem successes_eq_nil (results : List AdapterResult)
    (h : ∀ r ∈ results, r.isFailure = true) : successes results = [] := by
  induction results with
  | nil => rfl
  | cons r t ih =>
      cases r with
      | success o =>
          exact absurd (h _ (List.mem_cons_self _ _)) (by simp [AdapterResult.isFailure])
      | failure k =>
          have : successes (AdapterResult.failure k :: t) = successes t := rfl
          rw [this]
          exact ih fun r hr => h r (List.mem_cons_of_mem _ hr)

theorem map_filter_comm {α β : Type} (f : α → β) (p : β → Bool) :
    ∀ l : List α, (l.map f).filter p = (l.filter (fun a => p (f a))).map f := by
  intro l
  induction l with
  | nil => rfl
  | cons a t ih =>
      by_cases h : p (f a) = true
      · simp [List.filter_cons, h, ih]
      · simp [List.filter_cons, h, ih]

theorem key_partition {α κ : Type} [DecidableEq κ] (f : α → κ) :
    ∀ ks : List κ, ks.Nodup → ∀ l : List α, (∀ a ∈ l, f a ∈ ks) →
      (ks.map (fun k => l.countP (fun a => decide (f a = k)))).sum = l.length := by
  intro ks
  induction ks with
  | nil =>
      intro _ l hl
      match l with
      | [] => rfl
      | a :: t => exact absurd (hl a (List.mem_cons_self _ _)) (by simp)
  | cons k ks ih =>
      intro hnd l hl
      have hknotin : k ∉ ks := (List.nodup_cons.mp hnd).1
      rw [List.map_cons, List.sum_cons]
      have hcount : ∀ k2 ∈ ks,
          l.countP (fun a => decide (f a = k2))
            = (l.filter (fun a => decide (f a ≠ k))).countP (fun a => decide (f a = k2)) := by
        intro k2 hk2
        rw [List.countP_filter]
        refine List.countP_congr fun a _ => ?_
        have hk2k : k2 ≠ k := fun hc => hknotin (hc ▸ hk2)
        constructor
        · intro ha
          have hfa : f a = k2 := of_decide_eq_true ha
          have hne : f a ≠ k := fun hc => hk2k (hfa.symm.trans hc)
          simp [hfa, hne, hk2k]
        · intro ha
          have ha2 : f a = k2 ∧ ¬ f a = k := by simpa using ha
          simp [ha2.1]
      rw [List.map_congr_left hcount]
      have hcover : ∀ a ∈ l.filter (fun a => decide (f a ≠ k)), f a ∈ ks := by
        intro a ha
        have hmem := List.mem_filter.mp ha
        have hne : f a ≠ k := of_decide_eq_true hmem.2
        rcases List.mem_cons.mp (hl a hmem.1) with hc | hc
        · exact absurd hc hne
        · exact hc
      rw [ih (List.nodup_cons.mp hnd).2 _ hcover]
      have hsplit := List.length_eq_countP_add_countP (fun a => decide (f a = k)) l
      have hq : (l.filter (fun a => decide (f a ≠ k))).length
          = l.countP (fun a => decide ¬(decide (f a = k)) = true) := by
        rw [← List.countP_eq_length_filter]
        refine List.countP_congr fun a _ => ?_
        by_cases hfa : f a = k <;> simp [hfa]
      rw [hq]
      omega

theorem rankRel_total (v : String → ℚ) : ∀ a b, rankRel v a b ∨ rankRel v b a := by
  intro a b
  rcases lt_trichotomy (v a) (v b) with h | h | h
  · exact Or.inr (Or.inl h)
  · rcases le_total a b with hab | hab
    · exact Or.inl (Or.inr ⟨h, hab⟩)
    · exact Or.inr (Or.inr ⟨h.symm, hab⟩)
  · exact Or.inl (Or.inl h)

theorem rankRel_trans (v : String → ℚ) :
    ∀ a b c, rankRel v a b → rankRel v b c → rankRel v a c := by
  intro a b c h1 h2
  rcases h1 with h1 | ⟨e1, n1⟩ <;> rcases h2 with h2 | ⟨e2, n2⟩
  · exact Or.inl (h2.trans h1)
  · exact Or.inl (e2 ▸ h1)
  · exact Or.inl (e1 ▸ h2)
  · exact Or.inr ⟨e1.trans e2, n1.trans n2⟩

/-! ## Claim theorems -/

/-- C1: for every sentiment score, the derived label follows the fixed
threshold rule: a score strictly above 0.1 is labelled Positive, a score
strictly below -0.1 is labelled Negative, and every other score is labelled
Neutral; in particular the boundary score 0.1 is Neutral and 0.1000001 is
Positive, in the Dashboard label function as well. -/
theorem sentiment_label_threshold_rule :
    (∀ s : ℚ, 0.1 < s → BarList.getSentimentLabel s = "Positive")
    ∧ (∀ s : ℚ, s < -0.1 → BarList.getSentimentLabel s = "Negative")
    ∧ (∀ s : ℚ, -0.1 ≤ s → s ≤ 0.1 → BarList.getSentimentLabel s = "Neutral")
    ∧ BarList.getSentimentLabel 0.1 = "Neutral"
    ∧ BarList.getSentimentLabel 0.1000001 = "Positive"
    ∧ (Dashboard.getSentimentLabel 0.1).label = "Neutral"
    ∧ (Dashboard.getSentimentLabel 0.1000001).label = "Positive" := by
  refine ⟨?_, ?_, ?_, by norm_num [BarList.getSentimentLabel],
    by norm_num [BarList.getSentimentLabel],
    by norm_num [Dashboard.getSentimentLabel],
    by norm_num [Dashboard.getSentimentLabel]⟩
  · intro s hs
    simp [BarList.getSentimentLabel, hs]
  · intro s hs
    have hns : ¬ s > 0.1 := by norm_num at hs ⊢; linarith
    simp [BarList.getSentimentLabel, hns, hs]
  · intro s h1 h2
    have hns : ¬ s > 0.1 := not_lt.mpr h2
    have hns2 : ¬ s < -0.1 := not_lt.mpr h1
    simp [BarList.getSentimentLabel, hns, hns2]

/-- C1 witness: the rule applied at concrete scores. -/
theorem sentiment_label_threshold_rule_witness :
    ((0.1 : ℚ) < 0.5 ∧ BarList.getSentimentLabel 0.5 = "Positive")
    ∧ ((-0.5 : ℚ) < -0.1 ∧ BarList.getSentimentLabel (-0.5) = "Negative")
    ∧ ((-0.1 : ℚ) ≤ 0 ∧ (0 : ℚ) ≤ 0.1 ∧ BarList.getSentimentLabel 0 = "Neutral") :=
  ⟨⟨by norm_num, sentiment_label_threshold_rule.1 0.5 (by norm_num)⟩,
   ⟨by norm_num, sentiment_label_threshold_rule.2.1 (-0.5) (by norm_num)⟩,
   ⟨by norm_num, by norm_num,
    sentiment_label_threshold_rule.2.2.1 0 (by norm_num) (by norm_num)⟩⟩

/-- C2: the Dashboard label function, the BarList label function and the
BarList color function classify every score into the same sentiment
category. -/
theorem sentiment_classifiers_agree (s : ℚ) :
    labelCategory (Dashboard.getSentimentLabel s).label
        = labelCategory (BarList.getSentimentLabel s)
    ∧ colorCategory (Dashboard.getSentimentLabel s).color
        = labelCategory (BarList.getSentimentLabel s)
    ∧ colorCategory (BarList.getSentimentColor s)
        = labelCategory (BarList.getSentimentLabel s) := by
  unfold Dashboard.getSentimentLabel BarList.getSentimentLabel BarList.getSentimentColor
  by_cases h1 : s > 0.1 <;> by_cases h2 : s < -0.1 <;>
    simp [h1, h2, labelCategory, colorCategory]

/-- C3: for every non-empty list of successful model outcomes, the fused
score equals the confidence-weighted average of the per-model scores. -/
theorem fused_score_is_weighted_average (outcomes : List ModelOutcome)
    (_hne : outcomes ≠ []) :
    fusedScore outcomes
      = (outcomes.map (fun o => o.score * o.confidence)).sum
          / (outcomes.map (fun o => o.confidence)).sum := by
  unfold fusedScore weightedScoreSum confidenceSum
  rw [foldl_add_map_sum, foldl_add_map_sum]
  simp

/-- C3 witness: the weighted-average identity at a concrete outcome list. -/
theorem fused_score_is_weighted_average_witness :
    ([⟨"vader", 1/2, 1/2⟩, ⟨"roberta", 1, 1/4⟩] : List ModelOutcome) ≠ []
    ∧ fusedScore [⟨"vader", 1/2, 1/2⟩, ⟨"roberta", 1, 1/4⟩]
      = (([⟨"vader", 1/2, 1/2⟩, ⟨"roberta", 1, 1/4⟩] : List ModelOutcome).map
          (fun o => o.score * o.confidence)).sum
        / (([⟨"vader", 1/2, 1/2⟩, ⟨"roberta", 1, 1/4⟩] : List ModelOutcome).map
            (fun o => o.confidence)).sum :=
  ⟨List.cons_ne_nil _ _,
   fused_score_is_weighted_average [⟨"vader", 1/2, 1/2⟩, ⟨"roberta", 1, 1/4⟩]
     (List.cons_ne_nil _ _)⟩

/-- C4: fusing exactly one successful model outcome succeeds, reproduces that
model's score and its derived label exactly, and the fused confidence is
strictly below the configured high-confidence cap. -/
theorem single_model_fusion (cfg : FusionConfig) (o : ModelOutcome)
    (hcfg : cfg.singleModelCap < cfg.highConfidenceCap) :
    ∃ r : SentimentResult, fuse cfg [o] = .ok r ∧ r.score = o.score
      ∧ r.label = labelOfScore o.score ∧ r.confidence < cfg.highConfidenceCap :=
  ⟨_, rfl, rfl, rfl, lt_of_le_of_lt (min_le_right _ _) hcfg⟩

/-- C4 witness: single-model fusion at a concrete configuration and outcome. -/
theorem single_model_fusion_witness :
    (⟨9/10, 4/5⟩ : FusionConfig).singleModelCap < (⟨9/10, 4/5⟩ : FusionConfig).highConfidenceCap
    ∧ ∃ r : SentimentResult, fuse ⟨9/10, 4/5⟩ [⟨"vader", 1/2, 3/4⟩] = .ok r
        ∧ r.score = (⟨"vader", 1/2, 3/4⟩ : ModelOutcome).score
        ∧ r.label = labelOfScore (⟨"vader", 1/2, 3/4⟩ : ModelOutcome).score
        ∧ r.confidence < (⟨9/10, 4/5⟩ : FusionConfig).highConfidenceCap :=
  ⟨by norm_num, single_model_fusion ⟨9/10, 4/5⟩ ⟨"vader", 1/2, 3/4⟩ (by norm_num)⟩

/-- C5: when every adapter fails for a mention, scoring fails with
EnsembleExhausted, and processing that mention persists nothing, leaves the
scored tally unchanged and counts one error in the run quality tallies. -/
theorem ensemble_exhausted_on_total_failure (cfg : FusionConfig) (item : RawItem)
    (results : List AdapterResult) (h : ∀ r ∈ results, r.isFailure = true) :
    scoreMention cfg results = .error .ensembleExhausted
    ∧ ∀ acc : List Mention × RunQuality,
        processStep cfg acc (item, results) = (acc.1, ⟨acc.2.scored, acc.2.errors + 1⟩) := by
  have hs : scoreMention cfg results = .error .ensembleExhausted := by
    unfold scoreMention
    rw [successes_eq_nil results h]
    rfl
  refine ⟨hs, fun acc => ?_⟩
  unfold processStep
  rw [hs]

/-- C5 witness: total adapter failure at a concrete item and result list. -/
theorem ensemble_exhausted_on_total_failure_witness :
    scoreMention ⟨9/10, 4/5⟩ [.failure .timeout, .failure .modelError] = .error .ensembleExhausted
    ∧ processStep ⟨9/10, 4/5⟩ ([], ⟨3, 1⟩)
        (⟨"Good Robot", "p1", "great spot", 0⟩, [.failure .timeout, .failure .modelError])
      = ([], ⟨3, 2⟩) := by
  have h := ensemble_exhausted_on_total_failure ⟨9/10, 4/5⟩ ⟨"Good Robot", "p1", "great spot", 0⟩
    [.failure .timeout, .failure .modelError]
    (by decide)
  exact ⟨h.1, h.2 ([], ⟨3, 1⟩)⟩

/-- C6: quality_score is monotonic: non-decreasing in acceptance rate and in
average confidence, non-increasing in spam fraction, and the snapshot built
by the quality aggregator carries exactly that score of its rates. -/
theorem quality_score_monotonic :
    (∀ a b c s : ℚ, a ≤ b → quality_score a c s ≤ quality_score b c s)
    ∧ (∀ a c d s : ℚ, c ≤ d → quality_score a c s ≤ quality_score a d s)
    ∧ (∀ a c s t : ℚ, s ≤ t → quality_score a c t ≤ quality_score a c s)
    ∧ ∀ (p : ℤ) (total valid invalid spam mf ue : ℕ) (conf : ℚ),
        (mkQualitySnapshot p total valid invalid spam mf ue conf).quality_score
          = quality_score ((valid : ℚ) / total) conf ((spam : ℚ) / total) := by
  refine ⟨?_, ?_, ?_, fun _ _ _ _ _ _ _ _ => rfl⟩
  · intro a b c s h
    exact clamp01_mono (by linarith)
  · intro a c d s h
    exact clamp01_mono (by linarith)
  · intro a c s t h
    exact clamp01_mono (by linarith)

/-- C6 witness: the three monotonicity directions at concrete rates. -/
theorem quality_score_monotonic_witness :
    ((0 : ℚ) ≤ 1 ∧ quality_score 0 (1/2) (1/4) ≤ quality_score 1 (1/2) (1/4))
    ∧ ((1/2 : ℚ) ≤ 1 ∧ quality_score 1 (1/2) (1/4) ≤ quality_score 1 1 (1/4))
    ∧ ((0 : ℚ) ≤ 1/4 ∧ quality_score 1 1 (1/4) ≤ quality_score 1 1 0) :=
  ⟨⟨by norm_num, quality_score_monotonic.1 0 1 (1/2) (1/4) (by norm_num)⟩,
   ⟨by norm_num, quality_score_monotonic.2.1 1 (1/2) 1 (1/4) (by norm_num)⟩,
   ⟨by norm_num, quality_score_monotonic.2.2.1 1 1 0 (1/4) (by norm_num)⟩⟩

/-- C7: for every mention set, optional entity filter, window, granularity
and entity, the mention counts of the emitted trend points of that entity sum
to the number of that entity's qualifying mentions in the window, and every
emitted trend point counts at least one mention (zero buckets are omitted). -/
theorem trend_buckets_partition (mentions : List Mention) (entities : Option (List String))
    (ws we : ℤ) (g : Granularity) (e : String) :
    (((aggregate mentions entities ws we g).filter
        (fun p => decide (p.entity_name = e))).map TrendPoint.mention_count).sum
      = ((qualifyingMentions mentions entities ws we).filter
          (fun m => decide (m.entity_name = e))).length
    ∧ ∀ p ∈ aggregate mentions entities ws we g, 0 < p.mention_count := by
  have hagg : aggregate mentions entities ws we g
      = (((qualifyingMentions mentions entities ws we).map (trendKey g)).dedup).map
          (mkTrendPoint g (qualifyingMentions mentions entities ws we)) := rfl
  set lq := qualifyingMentions mentions entities ws we with hlq
  constructor
  · rw [hagg, map_filter_comm]
    have hfun : (fun k : String × ℤ => decide ((mkTrendPoint g lq k).entity_name = e))
        = fun k : String × ℤ => decide (k.1 = e) := rfl
    rw [hfun, List.map_map]
    have hcomp : (TrendPoint.mention_count ∘ mkTrendPoint g lq)
        = fun k => (lq.filter (fun m => decide (trendKey g m = k))).length := rfl
    rw [hcomp]
    set ksE := ((lq.map (trendKey g)).dedup).filter (fun k => decide (k.1 = e)) with hksE
    set lE := lq.filter (fun m => decide (m.entity_name = e)) with hlE
    have hmapc : (ksE.map fun k => (lq.filter (fun m => decide (trendKey g m = k))).length)
        = ksE.map fun k => lE.countP (fun m => decide (trendKey g m = k)) := by
      refine List.map_congr_left fun k hk => ?_
      have hke : k.1 = e := of_decide_eq_true (List.mem_filter.mp hk).2
      rw [← List.countP_eq_length_filter, hlE, List.countP_filter]
      refine List.countP_congr fun m _ => ?_
      constructor
      · intro hm
        have hkm : trendKey g m = k := of_decide_eq_true hm
        have hme : m.entity_name = e := by
          have : (trendKey g m).1 = m.entity_name := rfl
          rw [← this, hkm, hke]
        simp [hkm, hme]
      · intro hm
        have hm2 : trendKey g m = k ∧ m.entity_name = e := by simpa using hm
        simp [hm2.1]
    rw [hmapc]
    refine key_partition (trendKey g) ksE ?_ lE ?_
    · exact List.Nodup.filter _ (List.nodup_dedup _)
    · intro m hm
      have hmem := List.mem_filter.mp hm
      have hme : m.entity_name = e := of_decide_eq_true hmem.2
      refine List.mem_filter.mpr ⟨List.mem_dedup.mpr (List.mem_map.mpr ⟨m, hmem.1, rfl⟩), ?_⟩
      have : (trendKey g m).1 = m.entity_name := rfl
      simp [this, hme]
  · intro p hp
    rw [hagg] at hp
    obtain ⟨k, hk, rfl⟩ := List.mem_map.mp hp
    obtain ⟨m, hm, hkey⟩ := List.mem_map.mp (List.mem_dedup.mp hk)
    have hmem : m ∈ lq.filter (fun m2 => decide (trendKey g m2 = k)) :=
      List.mem_filter.mpr ⟨hm, by simp [hkey]⟩
    have hcnt : (mkTrendPoint g lq k).mention_count
        = (lq.filter (fun m2 => decide (trendKey g m2 = k))).length := rfl
    rw [hcnt]
    exact List.length_pos.mpr (List.ne_nil_of_mem hmem)

/-- C7 witness: the partition identity and a positive bucket count at a
concrete one-mention set. -/
theorem trend_buckets_partition_witness :
    ((((aggregate [⟨"X", "s1", "good", 0, ⟨1/2, 1/2, "positive", []⟩⟩] none (-1) 1 .daily).filter
        (fun p => decide (p.entity_name = "X"))).map TrendPoint.mention_count).sum
      = ((qualifyingMentions [⟨"X", "s1", "good", 0, ⟨1/2, 1/2, "positive", []⟩⟩] none (-1) 1).filter
          (fun m => decide (m.entity_name = "X"))).length)
    ∧ 0 < (mkTrendPoint .daily
        (qualifyingMentions [⟨"X", "s1", "good", 0, ⟨1/2, 1/2, "positive", []⟩⟩] none (-1) 1)
        ("X", 0)).mention_count :=
  ⟨(trend_buckets_partition [⟨"X", "s1", "good", 0, ⟨1/2, 1/2, "positive", []⟩⟩]
      none (-1) 1 .daily "X").1,
   (trend_buckets_partition [⟨"X", "s1", "good", 0, ⟨1/2, 1/2, "positive", []⟩⟩]
      none (-1) 1 .daily "X").2 _ (by
        have h : aggregate [⟨"X", "s1", "good", 0, ⟨1/2, 1/2, "positive", []⟩⟩] none (-1) 1 .daily
            = [mkTrendPoint .daily
                (qualifyingMentions [⟨"X", "s1", "good", 0, ⟨1/2, 1/2, "positive", []⟩⟩]
                  none (-1) 1) ("X", 0)] := rfl
        rw [h]
        exact List.mem_cons_self _ _)⟩

/-- C8: for a comparison request over a non-empty entity list, every emitted
ranking is a permutation of the requested entities sorted by the ranking
order of its metric (descending by value, ties broken by entity name
ascending), and two entities with equal avg_sentiment rank in ascending name
order. -/
theorem comparison_rankings_total_order (mentions : List Mention) (now : ℤ)
    (entities metrics : List String) (days : ℤ) (_hne : entities ≠ []) :
    (∀ p ∈ (compareEntities mentions now entities metrics days).rankings,
        List.Perm p.2 entities
        ∧ List.Sorted (rankRel (metricValue (windowMentions mentions now days) p.1)) p.2)
    ∧ (compareEntities
        [⟨"A", "a1", "", 0, ⟨0, 1, "neutral", []⟩⟩,
         ⟨"B", "b1", "", 0, ⟨0, 1, "neutral", []⟩⟩] 0
        ["A", "B"] ["avg_sentiment"] 30).rankings
      = [("avg_sentiment", ["A", "B"])] := by
  constructor
  · intro p hp
    obtain ⟨mt, hmt, rfl⟩ := List.mem_map.mp hp
    refine ⟨List.perm_insertionSort _ _, ?_⟩
    letI : IsTotal String (rankRel (metricValue (windowMentions mentions now days) mt)) :=
      ⟨rankRel_total _⟩
    letI : IsTrans String (rankRel (metricValue (windowMentions mentions now days) mt)) :=
      ⟨rankRel_trans _⟩
    exact List.sorted_insertionSort _ _
  · have hv : metricValue
        (windowMentions
          [⟨"A", "a1", "", 0, ⟨0, 1, "neutral", []⟩⟩,
           ⟨"B", "b1", "", 0, ⟨0, 1, "neutral", []⟩⟩] 0 30) "avg_sentiment" "A"
        = metricValue
            (windowMentions
              [⟨"A", "a1", "", 0, ⟨0, 1, "neutral", []⟩⟩,
               ⟨"B", "b1", "", 0, ⟨0, 1, "neutral", []⟩⟩] 0 30) "avg_sentiment" "B" := rfl
    have hAB : ("A" : String) ≤ "B" := by
      rw [String.le_iff_toList_le]; decide
    have hrel : rankRel
        (metricValue
          (windowMentions
            [⟨"A", "a1", "", 0, ⟨0, 1, "neutral", []⟩⟩,
             ⟨"B", "b1", "", 0, ⟨0, 1, "neutral", []⟩⟩] 0 30) "avg_sentiment") "A" "B" :=
      Or.inr ⟨hv, hAB⟩
    simp only [compareEntities, List.map_cons, List.map_nil, List.insertionSort,
      List.orderedInsert, if_pos hrel]

/-- C8 witness: the permutation and sortedness of a concrete ranking. -/
theorem comparison_rankings_total_order_witness :
    List.Perm (("total_mentions", ["A"]) : String × List String).2 ["A"]
    ∧ List.Sorted (rankRel (metricValue (windowMentions ([] : List Mention) 0 7) "total_mentions"))
        (("total_mentions", ["A"]) : String × List String).2 :=
  (comparison_rankings_total_order [] 0 ["A"] ["total_mentions"] 7
    (List.cons_ne_nil _ _)).1 ("total_mentions", ["A"]) (by decide)

/-- C9 counterexample: the AnalyticsSummary interface does not have exactly
the field set the claim lists: it carries an extra trending_foods field absent
from the promised shape, and the promised unique_entities field is named
unique_bars in the interface. -/
theorem analytics_summary_shape_counterexample :
    analyticsSummaryFields ≠ specAnalyticsSummaryFields
    ∧ "trending_foods" ∈ analyticsSummaryFields
    ∧ "trending_foods" ∉ specAnalyticsSummaryFields
    ∧ "unique_entities" ∉ analyticsSummaryFields
    ∧ "top_entities" ∉ analyticsSummaryFields := by
  refine ⟨by decide, by decide, by decide, by decide, by decide⟩

/-- C9 (amended): the AnalyticsSummary interface consists of the promised
fields under the bar naming of the code (unique_bars for unique_entities,
top_bars for top_entities) with one additional trending_foods field inserted
after top_bars, and the top_bars element records have exactly the promised
name, mentions and sentiment fields. -/
theorem analytics_summary_shape_amended :
    analyticsSummaryFields
      = (specAnalyticsSummaryFields.map entityFieldToBarField).take 5
        ++ "trending_foods" :: (specAnalyticsSummaryFields.map entityFieldToBarField).drop 5
    ∧ analyticsSummaryTopBarFields = specTopEntityFields := by
  refine ⟨by decide, by decide⟩

/-- C10: the DataQuality valid-posts percentage divides by
total_posts_processed with no zero guard, so on any row with zero processed
posts the computed percentage is a non-finite JavaScript number, whereas the
Dashboard sentiment-distribution percentage guards a non-positive total and
yields 0. -/
theorem dataquality_zero_denominator_unguarded :
    (∀ m : QualityMetrics, m.total_posts_processed = 0 →
        (dataQualityValidPct m).isFinite = false)
    ∧ ∀ (counts : List ℚ) (count : ℚ), counts.sum = 0 →
        dashboardSentimentPct counts count = .fin 0 := by
  constructor
  · intro m h
    unfold dataQualityValidPct
    rw [h]
    rcases lt_trichotomy m.valid_posts 0 with hv | hv | hv
    · have h1 : ¬ m.valid_posts = 0 := ne_of_lt hv
      have h2 : ¬ (0 : ℚ) < m.valid_posts := not_lt.mpr hv.le
      norm_num [jsDiv, jsMul, JSNum.isFinite, h1, h2]
    · norm_num [jsDiv, jsMul, JSNum.isFinite, hv]
    · have h1 : ¬ m.valid_posts = 0 := ne_of_gt hv
      norm_num [jsDiv, jsMul, JSNum.isFinite, h1, hv]
  · intro counts count h
    unfold dashboardSentimentPct
    simp [h]

/-- C10 witness: a QualityMetrics row with zero processed posts yields a
non-finite percentage, while the Dashboard guard yields 0 on a zero total. -/
theorem dataquality_zero_denominator_unguarded_witness :
    ((⟨"2024-01-01", 0, 5, 0, 0, 0, 0, 0, 0⟩ : QualityMetrics).total_posts_processed = 0
      ∧ (dataQualityValidPct ⟨"2024-01-01", 0, 5, 0, 0, 0, 0, 0, 0⟩).isFinite = false)
    ∧ (([0, 0, 0] : List ℚ).sum = 0
      ∧ dashboardSentimentPct [0, 0, 0] 0 = .fin 0) :=
  ⟨⟨rfl, dataquality_zero_denominator_unguarded.1 ⟨"2024-01-01", 0, 5, 0, 0, 0, 0, 0, 0⟩ rfl⟩,
   ⟨by norm_num, dataquality_zero_denominator_unguarded.2 [0, 0, 0] 0 (by norm_num)⟩⟩

end HalifaxBar
